import Mathlib

/-!
# Shallow embedding of the wedding-invite-app handler layer

This file embeds the server-side handlers of the wedding-invitation service
(`src/server/src/handlers/*.ts` and the unnamed handler sources) as pure Lean
functions over an explicit relational store, and proves the behavioural claims
about them.

Modelling conventions:
* The relational store is a `DB` structure of lists of rows, one list per table.
  `select ... where eq(col, v)` is `List.find?` / `List.filter`;
  `update ... where eq(col, v)` is a map that rewrites exactly the matching rows
  (`updateWhere`); `insert` appends to the list.
* Timestamps (`new Date()`) are naturals passed in as an explicit `now`
  argument; JS `Date` comparison is `<` on naturals.
* Serial primary keys produced by the database are passed in as explicit
  `newId` arguments; the serial key of the append-only login-log table is not
  read by any handler and is omitted from its row type.
* Randomness (the pbkdf2 salt, the random AES IVs, transaction tokens) is
  passed in as explicit string arguments.
* The cryptographic primitives (pbkdf2Sync, the AES-256-CBC cipher, the md5
  IV derivation) are parameters of the model, collected in `Crypto`; the
  handlers only concatenate their hex output, and no claim depends on their
  internals — only on the shape `salt ++ ":" ++ digest` of stored hashes,
  whose component lengths (32-hex-char salt from 16 random bytes,
  128-hex-char digest from a 64-byte pbkdf2 key) appear as hypotheses where
  needed.
* A handler that can `throw` is modelled as returning
  `Except String α × DB`: the string is the thrown message and the returned
  store is the post-call store.  In every embedded handler all throws occur
  before the first write, exactly as in the source.
-/

namespace WeddingApp

/-- `user_role` enum of `db/schema.ts`. -/
inductive UserRole where
  | super_admin
  | user_mitra
  | user_customer
deriving Repr, DecidableEq

/-- `user_status` enum of `db/schema.ts`. -/
inductive UserStatus where
  | pending
  | active
  | suspended
  | rejected
deriving Repr, DecidableEq

/-- `invitation_status` enum of `db/schema.ts`. -/
inductive InvitationStatus where
  | draft
  | published
  | unpublished
  | archived
deriving Repr, DecidableEq

/-- `rsvp_status` enum of `db/schema.ts`. -/
inductive RsvpStatus where
  | attending
  | not_attending
  | maybe
deriving Repr, DecidableEq

/-- `payment_status` enum of `db/schema.ts`. -/
inductive PaymentStatus where
  | pending
  | completed
  | failed
  | refunded
deriving Repr, DecidableEq

/-- Timestamps: JS `Date` values, modelled as naturals (milliseconds). -/
abbrev Time := Nat

/-- A row of the `users` table (`db/schema.ts`). -/
structure UserRow where
  id : Nat
  name : String
  username : String
  email : String
  phone : Option String
  password_hash : String
  role : UserRole
  status : UserStatus
  created_at : Time
  updated_at : Time
  last_login : Option Time
  approved_by : Option Nat
  approved_at : Option Time
deriving Repr, DecidableEq

/-- A row of the `login_logs` table (`db/schema.ts`); the serial `id`,
never read by a handler, is omitted. -/
structure LoginLogRow where
  user_id : Nat
  login_time : Time
  ip_address : String
  user_agent : String
  success : Bool
deriving Repr, DecidableEq

/-- A row of the `invitations` table (`db/schema.ts`). -/
structure InvitationRow where
  id : Nat
  user_id : Nat
  template_id : Nat
  title : String
  slug : String
  status : InvitationStatus
  wedding_data : String
  custom_css : Option String
  view_count : Nat
  rsvp_count : Nat
  published_at : Option Time
  expires_at : Option Time
  created_at : Time
  updated_at : Time
deriving Repr, DecidableEq

/-- A row of the `rsvps` table (`db/schema.ts`). -/
structure RsvpRow where
  id : Nat
  invitation_id : Nat
  guest_name : String
  guest_email : Option String
  guest_phone : Option String
  status : RsvpStatus
  guest_count : Nat
  message : Option String
  created_at : Time
deriving Repr, DecidableEq

/-- A row of the `guestbooks` table (`db/schema.ts`). -/
structure GuestbookRow where
  id : Nat
  invitation_id : Nat
  guest_name : String
  message : String
  is_approved : Bool
  created_at : Time
deriving Repr, DecidableEq

/-- A row of the `payments` table (`db/schema.ts`); the `numeric` amount is
kept as the string the table stores. -/
structure PaymentRow where
  id : Nat
  user_id : Nat
  invitation_id : Nat
  amount : String
  currency : String
  payment_method : String
  status : PaymentStatus
  transaction_id : Option String
  payment_data : Option String
  created_at : Time
  updated_at : Time
deriving Repr, DecidableEq

/-- A row of the `visitors` table (`db/schema.ts`). -/
structure VisitorRow where
  id : Nat
  invitation_id : Nat
  ip_address : String
  user_agent : String
  referrer : Option String
  visited_at : Time
deriving Repr, DecidableEq

/-- The relational store: one list per table touched by the embedded
handlers (the `templates` table is not consulted by any of them). -/
structure DB where
  users : List UserRow
  loginLogs : List LoginLogRow
  invitations : List InvitationRow
  rsvps : List RsvpRow
  guestbooks : List GuestbookRow
  payments : List PaymentRow
  visitors : List VisitorRow
deriving Repr, DecidableEq

/-- `update ... set f ... where p`: rewrite exactly the rows satisfying `p`. -/
def updateWhere {α : Type} (p : α → Bool) (f : α → α) (l : List α) : List α :=
  l.map fun x => if p x then f x else x

theorem find?_updateWhere {α : Type} (p : α → Bool) (f : α → α) (l : List α)
    (hpf : ∀ x, p x = true → p (f x) = true) :
    (updateWhere p f l).find? p = (l.find? p).map f := by
  induction l with
  | nil => rfl
  | cons x xs ih =>
    by_cases hx : p x = true
    · simp [updateWhere, List.find?, hx, hpf x hx]
    · have hx' : p x = false := by simpa using hx
      simp [updateWhere, List.find?, hx'] at ih ⊢
      exact ih

theorem find?_map_of_pred_invariant {α : Type} (q : α → Bool) (g : α → α) (l : List α)
    (hq : ∀ x, q (g x) = q x) :
    (l.map g).find? q = (l.find? q).map g := by
  induction l with
  | nil => rfl
  | cons x xs ih =>
    by_cases hx : q x = true
    · simp [List.find?, hx, hq x]
    · have hx' : q x = false := by simpa using hx
      simp [List.find?, hx', hq x] at ih ⊢
      exact ih

deriving instance DecidableEq for Except

/-- JS truthiness of a `string | null` value: `null` and the empty string are
falsy, every other string truthy (used for `if (input.guest_email)`-style
guards in the source). -/
def truthy : Option String → Bool
  | none => false
  | some s => !(s == "")

/-- The cryptographic primitives of `create_user.ts`, as parameters of the
model: `pbkdf2 password salt` is the hex digest of
`crypto.pbkdf2Sync(password, salt, 10000, 64, 'sha512')`; `cipherHex iv text`
is the hex ciphertext of the AES-256-CBC cipher under the fixed demo key;
`md5iv text` is the hex of the md5-derived deterministic IV. -/
structure Crypto where
  pbkdf2 : String → String → String
  cipherHex : String → String → String
  md5iv : String → String

/-- `hashPassword` of `create_user.ts`: the random 16-byte salt (32 hex
characters) is passed in explicitly; the stored credential is
`salt + ':' + hex(pbkdf2Sync(password, salt, 10000, 64, 'sha512'))`. -/
def hashPassword (pbkdf2 : String → String → String) (salt password : String) : String :=
  salt ++ ":" ++ pbkdf2 password salt

/-- `encrypt(text)` / `encrypt(text, deterministic)` of `create_user.ts` with
the (random or derived) IV passed in as hex: empty input is returned as-is
(`if (!text) return text`), otherwise `iv.toString('hex') + ':' + encrypted`. -/
def encrypt (c : Crypto) (ivHex : String) (text : String) : String :=
  if text == "" then text else ivHex ++ ":" ++ c.cipherHex ivHex text

/-- `encrypt(text, true)` of `create_user.ts`: the IV is derived
deterministically from the text. -/
def encryptDet (c : Crypto) (text : String) : String :=
  encrypt c (c.md5iv text) text

/-- `CreateUserInput` of `schema.ts`. -/
structure CreateUserInput where
  name : String
  username : String
  email : String
  phone : Option String
  password : String
  role : UserRole
deriving Repr, DecidableEq

/-- `createUser` of `create_user.ts` (successful-insert path; the database
unique-constraint failure on username/email is a store-level throw that
performs no write).  Hashes the password, masks name (random IV `ivName`),
email (deterministic IV) and phone (random IV `ivPhone`; the source guards
the phone with JS truthiness — `input.phone ? encrypt(input.phone) : null` —
so a null or empty-string phone is persisted as null), derives the status
from the role, inserts the row, and returns the row with the plaintext
name/email/phone put back for display. -/
def createUser (db : DB) (input : CreateUserInput) (c : Crypto)
    (salt ivName ivPhone : String) (newId : Nat) (now : Time) : UserRow × DB :=
  let password_hash := hashPassword c.pbkdf2 salt input.password
  let encryptedName := encrypt c ivName input.name
  let encryptedEmail := encryptDet c input.email
  let encryptedPhone := if truthy input.phone then
      input.phone.map fun ph => encrypt c ivPhone ph
    else none
  let status := if input.role == UserRole.user_mitra then UserStatus.pending else UserStatus.active
  let row : UserRow :=
    { id := newId, name := encryptedName, username := input.username,
      email := encryptedEmail, phone := encryptedPhone,
      password_hash := password_hash, role := input.role, status := status,
      created_at := now, updated_at := now, last_login := none,
      approved_by := none, approved_at := none }
  ({ row with name := input.name, email := input.email, phone := input.phone },
    { db with users := db.users ++ [row] })

/-- `getUsers` of `get_users.ts`: an unfiltered read of the users table; the
per-field `new Date(...)` re-wrapping of the source is the identity on the
modelled timestamps. -/
def getUsers (db : DB) : List UserRow :=
  db.users.map fun user =>
    { user with
      created_at := user.created_at, updated_at := user.updated_at,
      last_login := user.last_login, approved_at := user.approved_at }

/-- `LoginInput` of `schema.ts`. -/
structure LoginInput where
  username : String
  password : String
deriving Repr, DecidableEq

/-- `authenticateUser` of the authenticate-user handler: looks up by
username; unknown username appends a failed log with `user_id = 0` and
returns null; a stored `password_hash` differing from the supplied password
(the source compares them with `===`) appends a failed log with the user's id
and returns null; otherwise updates `last_login`, appends a successful log
and returns the user with the new `last_login`. -/
def authenticateUser (db : DB) (input : LoginInput) (now : Time) :
    Option UserRow × DB :=
  match db.users.find? (fun u => u.username == input.username) with
  | none =>
      let failLog : LoginLogRow :=
        { user_id := 0, login_time := now, ip_address := "127.0.0.1",
          user_agent := "test-agent", success := false }
      (none, { db with loginLogs := db.loginLogs ++ [failLog] })
  | some user =>
      if user.password_hash == input.password then
        let db1 :=
          { db with
            users := updateWhere (fun u => u.id == user.id)
              (fun u => { u with last_login := some now }) db.users }
        let okLog : LoginLogRow :=
          { user_id := user.id, login_time := now, ip_address := "127.0.0.1",
            user_agent := "test-agent", success := true }
        (some { user with last_login := some now },
          { db1 with loginLogs := db1.loginLogs ++ [okLog] })
      else
        let failLog : LoginLogRow :=
          { user_id := user.id, login_time := now, ip_address := "127.0.0.1",
            user_agent := "test-agent", success := false }
        (none, { db with loginLogs := db.loginLogs ++ [failLog] })

/-- `processPayment` of `create_payment.ts`: looks up the payment (throws
`Payment not found` otherwise), sets its status to completed or failed from
`gatewayResponse.success`, stores the serialized gateway response
(`gatewayBlob` models `JSON.stringify(gatewayResponse)`), and on success also
flips the payment's invitation to published with a fresh `published_at`. -/
def processPayment (db : DB) (paymentId : Nat) (gatewaySuccess : Bool)
    (gatewayBlob : String) (now : Time) : Except String PaymentRow × DB :=
  match db.payments.find? (fun p => p.id == paymentId) with
  | none => (.error "Payment not found", db)
  | some existingPayment =>
      let status := if gatewaySuccess then PaymentStatus.completed else PaymentStatus.failed
      let setPay : PaymentRow → PaymentRow := fun p =>
        { p with status := status, payment_data := some gatewayBlob, updated_at := now }
      let setInv : InvitationRow → InvitationRow := fun i =>
        { i with
          status := InvitationStatus.published, published_at := some now,
          updated_at := now }
      let db1 :=
        { db with
          payments := updateWhere (fun p => p.id == paymentId) setPay db.payments }
      let db2 :=
        if status == PaymentStatus.completed then
          { db1 with
            invitations := updateWhere
              (fun i => i.id == existingPayment.invitation_id) setInv
              db1.invitations }
        else db1
      (.ok (setPay existingPayment), db2)

/-- `CreateRsvpInput` of `schema.ts`. -/
structure CreateRsvpInput where
  invitation_id : Nat
  guest_name : String
  guest_email : Option String
  guest_phone : Option String
  status : RsvpStatus
  guest_count : Nat
  message : Option String
deriving Repr, DecidableEq

/-- `expires_at && expires_at < new Date()` of `create_rsvp.ts`: a non-null
`expires_at` strictly in the past. -/
def invitationExpired (inv : InvitationRow) (now : Time) : Bool :=
  match inv.expires_at with
  | some t => decide (t < now)
  | none => false

/-- The `or(...conditions)` duplicate-guest predicate of `create_rsvp.ts`:
the name condition is always present; the email and phone conditions are
pushed only when the corresponding input field is truthy (non-null and
non-empty), and each condition is conjoined with the invitation id. -/
def rsvpDuplicate (input : CreateRsvpInput) (r : RsvpRow) : Bool :=
  (r.invitation_id == input.invitation_id && r.guest_name == input.guest_name)
  || (truthy input.guest_email &&
        (r.invitation_id == input.invitation_id && r.guest_email == input.guest_email))
  || (truthy input.guest_phone &&
        (r.invitation_id == input.invitation_id && r.guest_phone == input.guest_phone))

/-- `createRsvp` of `create_rsvp.ts`: requires the invitation to exist, be
published and not be expired (three distinct messages), then rejects any
guest matching the duplicate predicate, then inserts the row and increments
the invitation's `rsvp_count` server-side. -/
def createRsvp (db : DB) (input : CreateRsvpInput) (newId : Nat) (now : Time) :
    Except String RsvpRow × DB :=
  match db.invitations.find? (fun i => i.id == input.invitation_id) with
  | none => (.error "Invitation not found", db)
  | some invitation =>
      if invitation.status != InvitationStatus.published then
        (.error "Invitation is not published", db)
      else if invitationExpired invitation now then
        (.error "Invitation has expired", db)
      else if db.rsvps.any (rsvpDuplicate input) then
        (.error "Guest has already responded to this invitation", db)
      else
        let createdRsvp : RsvpRow :=
          { id := newId, invitation_id := input.invitation_id,
            guest_name := input.guest_name, guest_email := input.guest_email,
            guest_phone := input.guest_phone, status := input.status,
            guest_count := input.guest_count, message := input.message,
            created_at := now }
        let db1 := { db with rsvps := db.rsvps ++ [createdRsvp] }
        let db2 :=
          { db1 with
            invitations := updateWhere (fun i => i.id == input.invitation_id)
              (fun i => { i with rsvp_count := i.rsvp_count + 1, updated_at := now })
              db1.invitations }
        (.ok createdRsvp, db2)

/-- `CreateGuestbookInput` of `schema.ts`. -/
structure CreateGuestbookInput where
  invitation_id : Nat
  guest_name : String
  message : String
deriving Repr, DecidableEq

/-- `message.toLowerCase()` (ASCII-accurate model of JS lowercasing; every
denylist word is ASCII). -/
def jsToLower (s : String) : String :=
  String.mk (s.data.map Char.toLower)

/-- Does the first character list start with the second? -/
def startsWith : List Char → List Char → Bool
  | _, [] => true
  | [], _ :: _ => false
  | c :: cs, d :: ds => c == d && startsWith cs ds

/-- Does the first character list contain the second as a contiguous run? -/
def containsSeq : List Char → List Char → Bool
  | [], sub => sub.isEmpty
  | c :: rest, sub => startsWith (c :: rest) sub || containsSeq rest sub

/-- `s.includes(sub)`: substring containment. -/
def includes (s sub : String) : Bool :=
  containsSeq s.data sub.data

/-- The fixed denylist `inappropriateWords` of the create-guestbook handler. -/
def inappropriateWords : List String := ["spam", "scam", "fake", "hate"]

/-- `inappropriateWords.some(word => lowerMessage.includes(word))` of the
create-guestbook handler. -/
def hasInappropriateContent (message : String) : Bool :=
  inappropriateWords.any fun word => includes (jsToLower message) word

/-- `createGuestbook` of the create-guestbook handler: requires the
invitation to exist and be published (two distinct messages; expiry is not
consulted), derives `is_approved` from the content filter and inserts the
row. -/
def createGuestbook (db : DB) (input : CreateGuestbookInput) (newId : Nat)
    (now : Time) : Except String GuestbookRow × DB :=
  match db.invitations.find? (fun i => i.id == input.invitation_id) with
  | none => (.error "Invitation not found", db)
  | some invitation =>
      if invitation.status != InvitationStatus.published then
        (.error "Invitation is not published", db)
      else
        let isApproved := !(hasInappropriateContent input.message)
        let row : GuestbookRow :=
          { id := newId, invitation_id := input.invitation_id,
            guest_name := input.guest_name, message := input.message,
            is_approved := isApproved, created_at := now }
        (.ok row, { db with guestbooks := db.guestbooks ++ [row] })

/-- `getInvitationBySlug` of `get_invitations.ts`: selects the invitation
whose slug matches and whose status is published (null otherwise), persists
`view_count := view_count + 1` for that row, and returns the row with the
post-increment count. -/
def getInvitationBySlug (db : DB) (slug : String) : Option InvitationRow × DB :=
  match db.invitations.find?
      (fun i => i.slug == slug && i.status == InvitationStatus.published) with
  | none => (none, db)
  | some invitation =>
      let db1 :=
        { db with
          invitations := updateWhere (fun i => i.id == invitation.id)
            (fun i => { i with view_count := invitation.view_count + 1 })
            db.invitations }
      (some { invitation with view_count := invitation.view_count + 1 }, db1)

/-- `publishInvitation` of `update_invitation.ts` (lines 31-41), as shipped
and routed: a placeholder that resolves to an empty object cast to
`Invitation` (`Promise.resolve({} as Invitation)`).  It reads nothing,
writes nothing and never throws; the empty object carries none of the
invitation fields and is modelled as `Unit`. -/
def publishInvitation (db : DB) (invitationId : Nat) :
    Except String Unit × DB :=
  (Except.ok (), db)

/-- `deleteInvitation` of `update_invitation.ts` (lines 43-53), as shipped
and routed: a placeholder that resolves to `true` unconditionally
(`Promise.resolve(true)`).  No existence or ownership check is performed,
nothing is deleted and no error is ever thrown. -/
def deleteInvitation (db : DB) (invitationId userId : Nat) :
    Except String Bool × DB :=
  (Except.ok true, db)

theorem find?_updateWhere_key {α : Type} (key : α → Nat) (k : Nat) (f : α → α)
    (hf : ∀ x, key (f x) = key x) (l : List α) :
    (updateWhere (fun x => key x == k) f l).find? (fun x => key x == k) =
      (l.find? (fun x => key x == k)).map f :=
  find?_updateWhere _ _ _ fun x hx => by rw [hf]; exact hx

theorem find?_updateWhere_ne_key {α : Type} (key : α → Nat) (k j : Nat)
    (hjk : j ≠ k) (f : α → α) (hf : ∀ x, key (f x) = key x) (l : List α) :
    (updateWhere (fun x => key x == k) f l).find? (fun x => key x == j) =
      l.find? (fun x => key x == j) := by
  induction l with
  | nil => rfl
  | cons x xs ih =>
    by_cases hk : (key x == k) = true
    · have hhead : updateWhere (fun x => key x == k) f (x :: xs) =
          f x :: updateWhere (fun x => key x == k) f xs := by
        unfold updateWhere
        rw [List.map_cons, if_pos hk]
      rw [hhead]
      by_cases hx : (key x == j) = true
      · have hxj : key x = j := by simpa using hx
        have hxk : key x = k := by simpa using hk
        exact absurd (hxj.symm.trans hxk) hjk
      · have hx' : (key x == j) = false := by simpa using hx
        have hfx' : (key (f x) == j) = false := by rw [hf]; exact hx'
        rw [List.find?_cons, List.find?_cons, hfx', hx']
        simp only [Bool.cond_false]
        exact ih
    · have hhead : updateWhere (fun x => key x == k) f (x :: xs) =
          x :: updateWhere (fun x => key x == k) f xs := by
        unfold updateWhere
        rw [List.map_cons, if_neg hk]
      rw [hhead]
      by_cases hx : (key x == j) = true
      · rw [List.find?_cons, List.find?_cons, hx]
      · have hx' : (key x == j) = false := by simpa using hx
        rw [List.find?_cons, List.find?_cons, hx']
        simp only [Bool.cond_false]
        exact ih

theorem find?_append_of_none {α : Type} (p : α → Bool) (l1 l2 : List α)
    (h : l1.find? p = none) : (l1 ++ l2).find? p = l2.find? p := by
  induction l1 with
  | nil => rfl
  | cons x xs ih =>
    by_cases hx : p x = true
    · rw [List.find?_cons_of_pos _ hx] at h
      exact absurd h (by simp)
    · rw [List.find?_cons_of_neg _ hx] at h
      rw [List.cons_append, List.find?_cons_of_neg _ hx]
      exact ih h

/-- Sample invitation used by concrete witnesses. -/
def invA : InvitationRow :=
  { id := 10, user_id := 1, template_id := 2, title := "Wedding A",
    slug := "wedding-a", status := InvitationStatus.draft,
    wedding_data := "{}", custom_css := none, view_count := 0, rsvp_count := 0,
    published_at := none, expires_at := none, created_at := 0, updated_at := 0 }

/-- Sample pending payment used by concrete witnesses. -/
def payA : PaymentRow :=
  { id := 5, user_id := 1, invitation_id := 10, amount := "99.99",
    currency := "USD", payment_method := "credit_card",
    status := PaymentStatus.pending, transaction_id := some "TXN_ABC",
    payment_data := none, created_at := 0, updated_at := 0 }

/-- Sample store holding `invA` and `payA`. -/
def dbC1 : DB :=
  { users := [], loginLogs := [], invitations := [invA], rsvps := [],
    guestbooks := [], payments := [payA], visitors := [] }

/-- C1: for every payment id resolving to an existing payment,
`processPayment` with `gatewayResponse.success = true` sets that payment's
status to completed and flips the linked invitation to published with
`published_at = some now` (non-null); with `success = false` it sets the
payment's status to failed and returns the invitations table — every field
of every invitation — unchanged. -/
theorem processPayment_completes_and_publishes (db : DB) (paymentId : Nat)
    (blob : String) (now : Time) (p : PaymentRow)
    (hp : db.payments.find? (fun q => q.id == paymentId) = some p) :
    (((processPayment db paymentId true blob now).1 =
        Except.ok { p with
          status := PaymentStatus.completed,
          payment_data := some blob, updated_at := now }) ∧
      ((processPayment db paymentId true blob now).2.payments.find?
          (fun q => q.id == paymentId) =
        some { p with
          status := PaymentStatus.completed,
          payment_data := some blob, updated_at := now }) ∧
      (∀ inv : InvitationRow,
        db.invitations.find? (fun i => i.id == p.invitation_id) = some inv →
        (processPayment db paymentId true blob now).2.invitations.find?
            (fun i => i.id == p.invitation_id) =
          some { inv with
            status := InvitationStatus.published,
            published_at := some now, updated_at := now })) ∧
    (((processPayment db paymentId false blob now).1 =
        Except.ok { p with
          status := PaymentStatus.failed,
          payment_data := some blob, updated_at := now }) ∧
      ((processPayment db paymentId false blob now).2.payments.find?
          (fun q => q.id == paymentId) =
        some { p with
          status := PaymentStatus.failed,
          payment_data := some blob, updated_at := now }) ∧
      ((processPayment db paymentId false blob now).2.invitations =
        db.invitations)) := by
  have hpayT : (processPayment db paymentId true blob now).2.payments =
      updateWhere (fun q => q.id == paymentId)
        (fun q => { q with
          status := PaymentStatus.completed,
          payment_data := some blob, updated_at := now }) db.payments := by
    unfold processPayment; rw [hp]; rfl
  have hinvT : (processPayment db paymentId true blob now).2.invitations =
      updateWhere (fun i => i.id == p.invitation_id)
        (fun i => { i with
          status := InvitationStatus.published,
          published_at := some now, updated_at := now }) db.invitations := by
    unfold processPayment; rw [hp]; rfl
  have hpayF : (processPayment db paymentId false blob now).2.payments =
      updateWhere (fun q => q.id == paymentId)
        (fun q => { q with
          status := PaymentStatus.failed,
          payment_data := some blob, updated_at := now }) db.payments := by
    unfold processPayment; rw [hp]; rfl
  have hresT : (processPayment db paymentId true blob now).1 =
      Except.ok { p with
        status := PaymentStatus.completed,
        payment_data := some blob, updated_at := now } := by
    unfold processPayment; rw [hp]; rfl
  have hresF : (processPayment db paymentId false blob now).1 =
      Except.ok { p with
        status := PaymentStatus.failed,
        payment_data := some blob, updated_at := now } := by
    unfold processPayment; rw [hp]; rfl
  have hinvF : (processPayment db paymentId false blob now).2.invitations =
      db.invitations := by
    unfold processPayment; rw [hp]; rfl
  refine ⟨⟨hresT, ?_, ?_⟩, hresF, ?_, hinvF⟩
  · rw [hpayT, find?_updateWhere_key PaymentRow.id paymentId, hp]
    · rfl
    · intro x; rfl
  · intro inv hinv
    rw [hinvT, find?_updateWhere_key InvitationRow.id p.invitation_id, hinv]
    · rfl
    · intro x; rfl
  · rw [hpayF, find?_updateWhere_key PaymentRow.id paymentId, hp]
    · rfl
    · intro x; rfl

/-- Concrete instantiation of `processPayment_completes_and_publishes` on
`dbC1`: the declined path leaves the invitations table unchanged, the
successful path publishes `invA`. -/
theorem processPayment_completes_and_publishes_witness :
    dbC1.payments.find? (fun q => q.id == 5) = some payA ∧
    ((processPayment dbC1 5 true "gw-ok" 7).2.invitations.find?
        (fun i => i.id == payA.invitation_id) =
      some { invA with
        status := InvitationStatus.published, published_at := some 7,
        updated_at := 7 }) ∧
    (processPayment dbC1 5 false "gw-ok" 7).2.invitations = dbC1.invitations :=
  ⟨rfl,
    (processPayment_completes_and_publishes dbC1 5 "gw-ok" 7 payA rfl).1.2.2
      invA rfl,
    (processPayment_completes_and_publishes dbC1 5 "gw-ok" 7 payA rfl).2.2.2⟩

/-- The store with no rows. -/
def emptyDB : DB :=
  { users := [], loginLogs := [], invitations := [], rsvps := [],
    guestbooks := [], payments := [], visitors := [] }

theorem hashPassword_length (pbkdf2 : String → String → String)
    (salt password : String) :
    (hashPassword pbkdf2 salt password).length =
      salt.length + 1 + (pbkdf2 password salt).length := by
  simp [hashPassword, String.length_append, Nat.add_assoc]
  rfl

/-- The stored credential `salt:digest` can never equal the plaintext
password when their lengths differ: with the real primitives the salt is 32
hex characters and the pbkdf2 digest 128 hex characters, so the credential
has length 161. -/
theorem hashPassword_ne_password (pbkdf2 : String → String → String)
    (salt password : String) (hs : salt.length = 32)
    (hd : (pbkdf2 password salt).length = 128)
    (hp : password.length ≠ 161) :
    hashPassword pbkdf2 salt password ≠ password := by
  intro h
  apply hp
  rw [← h, hashPassword_length, hs, hd]

/-- After `createUser` stores `salt:digest`, `authenticateUser` with the very
password used at registration compares the plaintext against the stored
credential with string equality and therefore rejects it, appending a failed
login log carrying the fresh user's id. -/
theorem authenticateUser_createUser_mismatch (db : DB) (input : CreateUserInput)
    (c : Crypto) (salt ivName ivPhone : String) (newId : Nat) (t1 t2 : Time)
    (hfresh : db.users.find? (fun u => u.username == input.username) = none)
    (hne : hashPassword c.pbkdf2 salt input.password ≠ input.password) :
    (authenticateUser (createUser db input c salt ivName ivPhone newId t1).2
        { username := input.username, password := input.password } t2).1 =
      none ∧
    (authenticateUser (createUser db input c salt ivName ivPhone newId t1).2
        { username := input.username, password := input.password } t2).2.loginLogs =
      db.loginLogs ++
        [{ user_id := newId, login_time := t2, ip_address := "127.0.0.1",
           user_agent := "test-agent", success := false }] := by
  have husers : (createUser db input c salt ivName ivPhone newId t1).2.users =
      db.users ++
        [{ id := newId, name := encrypt c ivName input.name,
           username := input.username, email := encryptDet c input.email,
           phone := if truthy input.phone then
             input.phone.map fun ph => encrypt c ivPhone ph else none,
           password_hash := hashPassword c.pbkdf2 salt input.password,
           role := input.role,
           status := if input.role == UserRole.user_mitra then UserStatus.pending
             else UserStatus.active,
           created_at := t1, updated_at := t1, last_login := none,
           approved_by := none, approved_at := none }] := rfl
  have hlogs : (createUser db input c salt ivName ivPhone newId t1).2.loginLogs =
      db.loginLogs := rfl
  have hfind : (createUser db input c salt ivName ivPhone newId t1).2.users.find?
      (fun u => u.username ==
        ({ username := input.username, password := input.password } : LoginInput).username) =
      some { id := newId, name := encrypt c ivName input.name,
             username := input.username, email := encryptDet c input.email,
             phone := if truthy input.phone then
               input.phone.map fun ph => encrypt c ivPhone ph else none,
             password_hash := hashPassword c.pbkdf2 salt input.password,
             role := input.role,
             status := if input.role == UserRole.user_mitra then UserStatus.pending
               else UserStatus.active,
             created_at := t1, updated_at := t1, last_login := none,
             approved_by := none, approved_at := none } := by
    rw [husers, find?_append_of_none _ _ _ hfresh]
    simp [List.find?]
  have hbeq : (hashPassword c.pbkdf2 salt input.password == input.password) = false := by
    simpa using hne
  unfold authenticateUser
  rw [hfind]
  simp [hbeq, hlogs]

/-- Concrete stand-in for the pbkdf2 digest used to evaluate the
registration/login round trip: like the real primitive it returns a
128-hex-character string (64 bytes hex-encoded), which is all the round-trip
behaviour depends on. -/
def demoDigest : String := String.mk (List.replicate 128 'a')

/-- Concrete stand-in for the random 16-byte salt as 32 hex characters. -/
def demoSalt : String := String.mk (List.replicate 32 'f')

/-- Concrete crypto instantiation for evaluating the model on explicit
inputs; only the output shapes matter to the claims. -/
def demoCrypto : Crypto :=
  { pbkdf2 := fun _ _ => demoDigest,
    cipherHex := fun ivHex text => ivHex ++ text,
    md5iv := fun _ => "00112233445566778899aabbccddeeff" }

/-- Registration input used to evaluate the round trip. -/
def aliceInput : CreateUserInput :=
  { name := "Alice", username := "alice", email := "alice@example.com",
    phone := none, password := "password123", role := UserRole.user_customer }

/-- C2, failing input: register alice with password `password123`, then log
in as alice with the same password.  `createUser` stores
`salt:pbkdf2(password)` while `authenticateUser` compares that stored string
to the plaintext with `===`, so the login is rejected: the result is `none`
and the appended login-log entry is a failure carrying alice's id — the
registration/authentication round trip never succeeds. -/
theorem authenticateUser_roundtrip_fails_after_createUser :
    (authenticateUser (createUser emptyDB aliceInput demoCrypto demoSalt
        "11223344556677889900aabbccddeeff" "ffeeddccbbaa00998877665544332211" 1 5).2
      { username := "alice", password := "password123" } 9).1 = none ∧
    (authenticateUser (createUser emptyDB aliceInput demoCrypto demoSalt
        "11223344556677889900aabbccddeeff" "ffeeddccbbaa00998877665544332211" 1 5).2
      { username := "alice", password := "password123" } 9).2.loginLogs =
      [{ user_id := 1, login_time := 9, ip_address := "127.0.0.1",
         user_agent := "test-agent", success := false }] ∧
    (authenticateUser (createUser emptyDB aliceInput demoCrypto demoSalt
        "11223344556677889900aabbccddeeff" "ffeeddccbbaa00998877665544332211" 1 5).2
      { username := "alice", password := "password123" } 9).2.users.map
        (fun u => u.last_login) = [none] := by
  decide

/-- Invitation 40, owned by user 4, used to evaluate `deleteInvitation`. -/
def invC3 : InvitationRow :=
  { invA with id := 40, user_id := 4, slug := "wedding-c3" }

/-- A second invitation, owned by user 5. -/
def invC3b : InvitationRow :=
  { invA with id := 41, user_id := 5, slug := "wedding-c3b" }

/-- Store for the delete evaluation: invitation 40 (owner 4) with one
referencing row in each child table, next to invitation 41 (owner 5) with a
payment of its own. -/
def dbC3 : DB :=
  { users := [], loginLogs := [], invitations := [invC3, invC3b],
    rsvps := [{ id := 1, invitation_id := 40, guest_name := "Ann",
                guest_email := none, guest_phone := none,
                status := RsvpStatus.attending, guest_count := 1,
                message := none, created_at := 1 }],
    guestbooks := [{ id := 1, invitation_id := 40, guest_name := "Ben",
                     message := "Congrats", is_approved := true,
                     created_at := 1 }],
    payments := [{ payA with id := 6, invitation_id := 40, user_id := 4 },
                 { payA with id := 7, invitation_id := 41, user_id := 5 }],
    visitors := [{ id := 1, invitation_id := 40, ip_address := "ip",
                   user_agent := "ua", referrer := none, visited_at := 1 }] }

/-- C3, failing input: invitation 40 is owned by user 4 and has a visitor, a
guestbook entry, an RSVP and a payment referencing it, yet `deleteInvitation`
by the non-owner user 9 returns `ok true` with the store untouched instead
of failing with the conflated not-found-or-access-denied message, and even
the owner's delete removes neither the referencing rows nor the invitation —
the shipped handler is a placeholder contradicting its own doc comment and
its tests. -/
theorem deleteInvitation_placeholder_deletes_nothing :
    deleteInvitation dbC3 40 9 = (Except.ok true, dbC3) ∧
    deleteInvitation dbC3 40 4 = (Except.ok true, dbC3) ∧
    dbC3.invitations.find? (fun i => i.id == 40 && i.user_id == 4) =
      some invC3 ∧
    dbC3.invitations.find? (fun i => i.id == 40 && i.user_id == 9) = none ∧
    (deleteInvitation dbC3 40 4).2.rsvps.any
      (fun r => r.invitation_id == 40) = true ∧
    (deleteInvitation dbC3 40 4).2.guestbooks.any
      (fun g => g.invitation_id == 40) = true ∧
    (deleteInvitation dbC3 40 4).2.payments.any
      (fun p => p.invitation_id == 40) = true ∧
    (deleteInvitation dbC3 40 4).2.visitors.any
      (fun v => v.invitation_id == 40) = true ∧
    (deleteInvitation dbC3 40 4).2.invitations.any
      (fun i => i.id == 40) = true := by
  decide

/-- Store for the publish evaluation: draft invitation 10 with a completed
payment, next to draft invitation 11 with only a pending payment. -/
def dbC4 : DB :=
  { users := [], loginLogs := [],
    invitations := [invA, { invA with id := 11, slug := "wedding-b" }],
    rsvps := [], guestbooks := [],
    payments := [{ payA with id := 8, status := PaymentStatus.completed },
                 { payA with id := 9, invitation_id := 11 }],
    visitors := [] }

/-- C4, failing input: invitation 10 is draft with a completed payment, yet
`publishInvitation` performs no update — invitation 10 stays draft with
`published_at = none`; invitation 11, whose only payment is pending, raises
no no-completed-payment error, and the unknown id 99 raises no not-found
error: the shipped handler is a placeholder returning an empty object,
contradicting its own doc comment and its tests. -/
theorem publishInvitation_placeholder_never_publishes :
    publishInvitation dbC4 10 = (Except.ok (), dbC4) ∧
    publishInvitation dbC4 11 = (Except.ok (), dbC4) ∧
    publishInvitation dbC4 99 = (Except.ok (), dbC4) ∧
    dbC4.payments.any (fun p => p.invitation_id == 10 &&
      p.status == PaymentStatus.completed) = true ∧
    (publishInvitation dbC4 10).2.invitations.find? (fun i => i.id == 10) =
      some invA ∧
    invA.status = InvitationStatus.draft ∧ invA.published_at = none ∧
    dbC4.invitations.find? (fun i => i.id == 99) = none := by
  decide

/-- C5 (amended): with the first `createRsvp` succeeding on a published,
non-expired invitation, a later call on the same invitation whose
`guest_name` matches, or whose truthy (non-null, non-empty) `guest_email`
matches, or whose truthy `guest_phone` matches the first guest, fails with
the already-responded message; a call for the same guest identity against a
different published, non-expired invitation with no clashing RSVP succeeds. -/
theorem createRsvp_duplicate_guard_scoped (db : DB)
    (input1 input2 : CreateRsvpInput) (inv : InvitationRow) (id1 id2 : Nat)
    (t1 t2 : Time)
    (hinv : db.invitations.find? (fun i => i.id == input1.invitation_id) = some inv)
    (hst : inv.status = InvitationStatus.published)
    (hexp1 : invitationExpired inv t1 = false)
    (hnodup : db.rsvps.any (rsvpDuplicate input1) = false)
    (hexp2 : invitationExpired inv t2 = false) :
    ((createRsvp db input1 id1 t1).1 = Except.ok
      { id := id1, invitation_id := input1.invitation_id,
        guest_name := input1.guest_name, guest_email := input1.guest_email,
        guest_phone := input1.guest_phone, status := input1.status,
        guest_count := input1.guest_count, message := input1.message,
        created_at := t1 }) ∧
    ((input2.invitation_id = input1.invitation_id ∧
        (input2.guest_name = input1.guest_name ∨
         (truthy input2.guest_email = true ∧
           input2.guest_email = input1.guest_email) ∨
         (truthy input2.guest_phone = true ∧
           input2.guest_phone = input1.guest_phone))) →
      (createRsvp (createRsvp db input1 id1 t1).2 input2 id2 t2).1 =
        Except.error "Guest has already responded to this invitation") ∧
    (∀ inv2, input2.invitation_id ≠ input1.invitation_id →
      db.invitations.find? (fun i => i.id == input2.invitation_id) = some inv2 →
      inv2.status = InvitationStatus.published →
      invitationExpired inv2 t2 = false →
      db.rsvps.any (rsvpDuplicate input2) = false →
      (createRsvp (createRsvp db input1 id1 t1).2 input2 id2 t2).1 =
        Except.ok
          { id := id2, invitation_id := input2.invitation_id,
            guest_name := input2.guest_name, guest_email := input2.guest_email,
            guest_phone := input2.guest_phone, status := input2.status,
            guest_count := input2.guest_count, message := input2.message,
            created_at := t2 }) := by
  have hbne1 : (inv.status != InvitationStatus.published) = false := by
    simp [hst]
  have hc1 : createRsvp db input1 id1 t1 =
      (Except.ok
        { id := id1, invitation_id := input1.invitation_id,
          guest_name := input1.guest_name, guest_email := input1.guest_email,
          guest_phone := input1.guest_phone, status := input1.status,
          guest_count := input1.guest_count, message := input1.message,
          created_at := t1 },
        { db with
          rsvps := db.rsvps ++
            [{ id := id1, invitation_id := input1.invitation_id,
               guest_name := input1.guest_name, guest_email := input1.guest_email,
               guest_phone := input1.guest_phone, status := input1.status,
               guest_count := input1.guest_count, message := input1.message,
               created_at := t1 }],
          invitations := updateWhere (fun i => i.id == input1.invitation_id)
            (fun i => { i with rsvp_count := i.rsvp_count + 1, updated_at := t1 })
            db.invitations }) := by
    unfold createRsvp
    rw [hinv]
    simp [hbne1, hexp1, hnodup]
  refine ⟨by rw [hc1], ?_, ?_⟩
  · rintro ⟨heq, hover⟩
    have hfind2 : (updateWhere (fun i => i.id == input1.invitation_id)
        (fun i => { i with rsvp_count := i.rsvp_count + 1, updated_at := t1 })
        db.invitations).find? (fun i => i.id == input2.invitation_id) =
        some { inv with rsvp_count := inv.rsvp_count + 1, updated_at := t1 } := by
      rw [heq, find?_updateWhere_key InvitationRow.id input1.invitation_id, hinv]
      · rfl
      · intro x; rfl
    have hbne2 : (({ inv with rsvp_count := inv.rsvp_count + 1, updated_at := t1 } : InvitationRow).status != InvitationStatus.published) = false := by
      simp [hst]
    have hexpb : invitationExpired { inv with rsvp_count := inv.rsvp_count + 1, updated_at := t1 } t2 = false := by
      simpa [invitationExpired] using hexp2
    have hdup : rsvpDuplicate input2
        { id := id1, invitation_id := input1.invitation_id,
          guest_name := input1.guest_name, guest_email := input1.guest_email,
          guest_phone := input1.guest_phone, status := input1.status,
          guest_count := input1.guest_count, message := input1.message,
          created_at := t1 } = true := by
      rcases hover with hname | ⟨he1, he2⟩ | ⟨hp1, hp2⟩
      · simp [rsvpDuplicate, heq, hname]
      · have he1b : truthy input1.guest_email = true := by
          rw [← he2]; exact he1
        simp [rsvpDuplicate, heq, he2, he1b]
      · have hp1b : truthy input1.guest_phone = true := by
          rw [← hp2]; exact hp1
        simp [rsvpDuplicate, heq, hp2, hp1b]
    rw [hc1]
    unfold createRsvp
    simp [hfind2, hbne2, hexpb, List.any_append, hdup]
  · intro inv2 hne hfind2 hst2 hexp2b hnodup2
    have hgfind : (updateWhere (fun i => i.id == input1.invitation_id)
        (fun i => { i with rsvp_count := i.rsvp_count + 1, updated_at := t1 })
        db.invitations).find? (fun i => i.id == input2.invitation_id) =
        some inv2 := by
      rw [find?_updateWhere_ne_key InvitationRow.id input1.invitation_id
        input2.invitation_id hne]
      · exact hfind2
      · intro x; rfl
    have hbne2 : (inv2.status != InvitationStatus.published) = false := by
      simp [hst2]
    have hr1dup : rsvpDuplicate input2
        { id := id1, invitation_id := input1.invitation_id,
          guest_name := input1.guest_name, guest_email := input1.guest_email,
          guest_phone := input1.guest_phone, status := input1.status,
          guest_count := input1.guest_count, message := input1.message,
          created_at := t1 } = false := by
      have h12 : (input1.invitation_id == input2.invitation_id) = false := by
        simp
        exact fun h => hne h.symm
      simp [rsvpDuplicate, h12]
    rw [hc1]
    unfold createRsvp
    simp [hgfind, hbne2, hexp2b, List.any_append, hnodup2, hr1dup]

/-- A published, never-expiring invitation. -/
def pubInv : InvitationRow :=
  { invA with
    id := 20, slug := "wedding-pub", status := InvitationStatus.published,
    published_at := some 1 }

/-- A second published invitation with its own id and slug. -/
def pubInvB : InvitationRow :=
  { invA with
    id := 21, slug := "wedding-pub-b", status := InvitationStatus.published,
    published_at := some 1 }

/-- Store with the two published invitations and no RSVPs. -/
def dbC5 : DB := { emptyDB with invitations := [pubInv, pubInvB] }

/-- First guest on invitation 20, with an empty-string phone. -/
def rsvpAnn : CreateRsvpInput :=
  { invitation_id := 20, guest_name := "Ann", guest_email := none,
    guest_phone := some "", status := RsvpStatus.attending, guest_count := 1,
    message := none }

/-- Second guest: different name, same non-null (empty-string) phone. -/
def rsvpBob : CreateRsvpInput := { rsvpAnn with guest_name := "Bob" }

/-- First guest on invitation 21, with an empty-string email. -/
def rsvpCat : CreateRsvpInput :=
  { invitation_id := 21, guest_name := "Cat", guest_email := some "",
    guest_phone := none, status := RsvpStatus.maybe, guest_count := 2,
    message := none }

/-- Second guest: different name, same non-null (empty-string) email. -/
def rsvpDan : CreateRsvpInput := { rsvpCat with guest_name := "Dan" }

/-- Store after Ann's RSVP. -/
def dbC5a : DB := (createRsvp dbC5 rsvpAnn 1 5).2

/-- Store after Ann's and Bob's RSVPs. -/
def dbC5b : DB := (createRsvp dbC5a rsvpBob 2 6).2

/-- Store after Ann's, Bob's and Cat's RSVPs. -/
def dbC5c : DB := (createRsvp dbC5b rsvpCat 3 7).2

/-- C5, counterexample: Bob's RSVP carries a non-null `guest_phone` equal to
Ann's existing RSVP on the same invitation, yet it succeeds, because the
source guards the phone condition with JS truthiness and the empty string is
falsy; Dan's RSVP shows the same evasion for a non-null empty-string
`guest_email` matching Cat's. -/
theorem createRsvp_empty_contact_evades_guard :
    rsvpAnn.guest_phone = some "" ∧ rsvpBob.guest_phone = some "" ∧
    rsvpBob.invitation_id = rsvpAnn.invitation_id ∧
    rsvpCat.guest_email = some "" ∧ rsvpDan.guest_email = some "" ∧
    rsvpDan.invitation_id = rsvpCat.invitation_id ∧
    ((createRsvp dbC5 rsvpAnn 1 5).1 = Except.ok
      { id := 1, invitation_id := 20, guest_name := "Ann", guest_email := none,
        guest_phone := some "", status := RsvpStatus.attending,
        guest_count := 1, message := none, created_at := 5 }) ∧
    ((createRsvp dbC5a rsvpBob 2 6).1 = Except.ok
      { id := 2, invitation_id := 20, guest_name := "Bob", guest_email := none,
        guest_phone := some "", status := RsvpStatus.attending,
        guest_count := 1, message := none, created_at := 6 }) ∧
    ((createRsvp dbC5b rsvpCat 3 7).1 = Except.ok
      { id := 3, invitation_id := 21, guest_name := "Cat",
        guest_email := some "", guest_phone := none, status := RsvpStatus.maybe,
        guest_count := 2, message := none, created_at := 7 }) ∧
    ((createRsvp dbC5c rsvpDan 4 8).1 = Except.ok
      { id := 4, invitation_id := 21, guest_name := "Dan",
        guest_email := some "", guest_phone := none, status := RsvpStatus.maybe,
        guest_count := 2, message := none, created_at := 8 }) := by
  decide

/-- First guest for the duplicate-guard witness, with a real email. -/
def rsvpEve : CreateRsvpInput :=
  { invitation_id := 20, guest_name := "Eve",
    guest_email := some "eve@example.com", guest_phone := none,
    status := RsvpStatus.attending, guest_count := 1, message := none }

/-- Second guest: different name, same non-empty email, same invitation. -/
def rsvpZoe : CreateRsvpInput :=
  { rsvpEve with guest_name := "Zoe" }

/-- The same guest identity as `rsvpZoe`, against invitation 21. -/
def rsvpZoeB : CreateRsvpInput :=
  { rsvpZoe with invitation_id := 21 }

/-- Concrete instantiation of `createRsvp_duplicate_guard_scoped` on `dbC5`:
after Eve's RSVP on invitation 20, Zoe's RSVP with the same non-empty email
on invitation 20 is rejected as a duplicate, while the identical guest
identity on invitation 21 succeeds. -/
theorem createRsvp_duplicate_guard_scoped_witness :
    ((createRsvp (createRsvp dbC5 rsvpEve 1 5).2 rsvpZoe 2 6).1 =
      Except.error "Guest has already responded to this invitation") ∧
    ((createRsvp (createRsvp dbC5 rsvpEve 1 5).2 rsvpZoeB 2 6).1 =
      Except.ok
        { id := 2, invitation_id := rsvpZoeB.invitation_id,
          guest_name := rsvpZoeB.guest_name, guest_email := rsvpZoeB.guest_email,
          guest_phone := rsvpZoeB.guest_phone, status := rsvpZoeB.status,
          guest_count := rsvpZoeB.guest_count, message := rsvpZoeB.message,
          created_at := 6 }) :=
  ⟨(createRsvp_duplicate_guard_scoped dbC5 rsvpEve rsvpZoe pubInv 1 2 5 6
      (by decide) (by decide) (by decide) (by decide) (by decide)).2.1
      ⟨rfl, Or.inr (Or.inl ⟨by decide, rfl⟩)⟩,
    (createRsvp_duplicate_guard_scoped dbC5 rsvpEve rsvpZoeB pubInv 1 2 5 6
      (by decide) (by decide) (by decide) (by decide) (by decide)).2.2 pubInvB
      (by decide) (by decide) (by decide) (by decide) (by decide)⟩

/-- C6: `createRsvp` fails with the not-published message whenever the
invitation exists with a status other than published (regardless of the
guest data), with the distinct expired message on a published invitation
whose `expires_at` is set and in the past, and with the distinct not-found
message for an unknown invitation id; in each failure the entire store —
rows and counters — is returned unchanged. -/
theorem createRsvp_failure_modes (db : DB) (input : CreateRsvpInput)
    (newId : Nat) (now : Time) :
    (db.invitations.find? (fun i => i.id == input.invitation_id) = none →
      createRsvp db input newId now = (Except.error "Invitation not found", db)) ∧
    (∀ inv, db.invitations.find? (fun i => i.id == input.invitation_id) = some inv →
      inv.status ≠ InvitationStatus.published →
      createRsvp db input newId now =
        (Except.error "Invitation is not published", db)) ∧
    (∀ inv t, db.invitations.find? (fun i => i.id == input.invitation_id) = some inv →
      inv.status = InvitationStatus.published → inv.expires_at = some t →
      t < now →
      createRsvp db input newId now = (Except.error "Invitation has expired", db)) := by
  refine ⟨?_, ?_, ?_⟩
  · intro hnone
    unfold createRsvp
    rw [hnone]
  · intro inv hinv hst
    have hbne : (inv.status != InvitationStatus.published) = true := by
      simpa using hst
    unfold createRsvp
    rw [hinv]
    simp [hbne]
  · intro inv t hinv hst hexp hlt
    have hbne : (inv.status != InvitationStatus.published) = false := by
      simp [hst]
    have hexpired : invitationExpired inv now = true := by
      simp [invitationExpired, hexp, hlt]
    unfold createRsvp
    rw [hinv]
    simp [hbne, hexpired]

/-- Draft invitation, expired published invitation and the stores used by
the failure-mode witness. -/
def expiredInv : InvitationRow :=
  { invA with
    id := 22, slug := "wedding-expired", status := InvitationStatus.published,
    published_at := some 1, expires_at := some 3 }

/-- Store with a draft invitation and an expired published invitation. -/
def dbC6 : DB := { emptyDB with invitations := [invA, expiredInv] }

/-- Concrete instantiation of `createRsvp_failure_modes` on `dbC6`: the
draft invitation 10 yields the not-published error, the expired invitation
22 yields the expired error, and the unknown id 99 yields the not-found
error, each leaving the store unchanged. -/
theorem createRsvp_failure_modes_witness :
    createRsvp dbC6 rsvpAnn 1 10 = (Except.error "Invitation not found", dbC6) ∧
    createRsvp dbC6 { rsvpAnn with invitation_id := 10 } 1 10 =
      (Except.error "Invitation is not published", dbC6) ∧
    createRsvp dbC6 { rsvpAnn with invitation_id := 22 } 1 10 =
      (Except.error "Invitation has expired", dbC6) :=
  ⟨(createRsvp_failure_modes dbC6 rsvpAnn 1 10).1 (by decide),
    (createRsvp_failure_modes dbC6 { rsvpAnn with invitation_id := 10 } 1 10).2.1
      invA (by decide) (by decide),
    (createRsvp_failure_modes dbC6 { rsvpAnn with invitation_id := 22 } 1 10).2.2
      expiredInv 3 (by decide) (by decide) (by decide) (by decide)⟩

/-- Expired published invitation for the guestbook counterexample. -/
def dbC7 : DB := { emptyDB with invitations := [expiredInv] }

/-- Guestbook input against the expired invitation. -/
def gbPast : CreateGuestbookInput :=
  { invitation_id := 22, guest_name := "Gus", message := "Best wishes" }

/-- C7, counterexample: invitation 22 is published but past its
`expires_at` (3 < 10), yet `createGuestbook` succeeds and inserts the row —
the handler never consults `expires_at`, so expiry does not block guestbook
creation as the claim states. -/
theorem createGuestbook_accepts_expired_invitation :
    expiredInv.expires_at = some 3 ∧ (3 : Nat) < 10 ∧
    expiredInv.status = InvitationStatus.published ∧
    ((createGuestbook dbC7 gbPast 1 10).1 = Except.ok
      { id := 1, invitation_id := 22, guest_name := "Gus",
        message := "Best wishes", is_approved := true, created_at := 10 }) ∧
    (createGuestbook dbC7 gbPast 1 10).2.guestbooks =
      [{ id := 1, invitation_id := 22, guest_name := "Gus",
         message := "Best wishes", is_approved := true, created_at := 10 }] := by
  decide

/-- C7 (amended): `createGuestbook` only ever inserts against an invitation
that exists and has status published; a missing or unpublished invitation
fails with its distinct message and no guestbook row is created (the store
is returned unchanged).  Expiry is not checked: a published invitation past
its `expires_at` still accepts entries. -/
theorem createGuestbook_requires_published (db : DB)
    (input : CreateGuestbookInput) (newId : Nat) (now : Time) :
    (db.invitations.find? (fun i => i.id == input.invitation_id) = none →
      createGuestbook db input newId now =
        (Except.error "Invitation not found", db)) ∧
    (∀ inv, db.invitations.find? (fun i => i.id == input.invitation_id) = some inv →
      inv.status ≠ InvitationStatus.published →
      createGuestbook db input newId now =
        (Except.error "Invitation is not published", db)) ∧
    (∀ row db2, createGuestbook db input newId now = (Except.ok row, db2) →
      ∃ inv, db.invitations.find? (fun i => i.id == input.invitation_id) = some inv ∧
        inv.status = InvitationStatus.published ∧
        db2.guestbooks = db.guestbooks ++ [row]) := by
  refine ⟨?_, ?_, ?_⟩
  · intro hnone
    unfold createGuestbook
    rw [hnone]
  · intro inv hinv hst
    have hbne : (inv.status != InvitationStatus.published) = true := by
      simpa using hst
    unfold createGuestbook
    rw [hinv]
    simp [hbne]
  · intro row db2 h
    rcases hfind : db.invitations.find? (fun i => i.id == input.invitation_id) with
      _ | inv
    · unfold createGuestbook at h
      rw [hfind] at h
      exact absurd h (by simp)
    · refine ⟨inv, hfind, ?_, ?_⟩
      · by_contra hst
        have hbne : (inv.status != InvitationStatus.published) = true := by
          simpa using hst
        unfold createGuestbook at h
        rw [hfind] at h
        simp [hbne] at h
      · have hst : inv.status = InvitationStatus.published := by
          by_contra hst
          have hbne : (inv.status != InvitationStatus.published) = true := by
            simpa using hst
          unfold createGuestbook at h
          rw [hfind] at h
          simp [hbne] at h
        have hbne : (inv.status != InvitationStatus.published) = false := by
          simp [hst]
        unfold createGuestbook at h
        rw [hfind] at h
        simp [hbne] at h
        rw [← h.2, ← h.1]

/-- Store with one published invitation for the guestbook witnesses. -/
def dbC8 : DB := { emptyDB with invitations := [pubInv] }

/-- Clean guestbook input against the published invitation. -/
def gbClean : CreateGuestbookInput :=
  { invitation_id := 20, guest_name := "Hal", message := "Congratulations" }

/-- Concrete instantiation of `createGuestbook_requires_published` on
`dbC8`: an unknown invitation and a draft invitation are both rejected with
the store unchanged, and the successful insert on the published invitation
implies the invitation was found published with the row appended. -/
theorem createGuestbook_requires_published_witness :
    createGuestbook dbC8 { gbClean with invitation_id := 99 } 1 10 =
      (Except.error "Invitation not found", dbC8) ∧
    createGuestbook dbC6 { gbClean with invitation_id := 10 } 1 10 =
      (Except.error "Invitation is not published", dbC6) ∧
    (∃ inv, dbC8.invitations.find? (fun i => i.id == gbClean.invitation_id) = some inv ∧
      inv.status = InvitationStatus.published ∧
      (createGuestbook dbC8 gbClean 1 10).2.guestbooks =
        dbC8.guestbooks ++
          [{ id := 1, invitation_id := 20, guest_name := "Hal",
             message := "Congratulations", is_approved := true,
             created_at := 10 }]) :=
  ⟨(createGuestbook_requires_published dbC8 { gbClean with invitation_id := 99 } 1 10).1
      (by decide),
    (createGuestbook_requires_published dbC6 { gbClean with invitation_id := 10 } 1 10).2.1
      invA (by decide) (by decide),
    (createGuestbook_requires_published dbC8 gbClean 1 10).2.2
      { id := 1, invitation_id := 20, guest_name := "Hal",
        message := "Congratulations", is_approved := true, created_at := 10 }
      (createGuestbook dbC8 gbClean 1 10).2 (by decide)⟩

/-- C8: every successfully created guestbook row keeps the message verbatim
and is unapproved exactly when the lowercased message contains some denylist
word as a substring; a message containing no denylist word is approved at
creation. -/
theorem createGuestbook_filter_denylist (db : DB) (input : CreateGuestbookInput)
    (newId : Nat) (now : Time) (row : GuestbookRow) (db2 : DB)
    (h : createGuestbook db input newId now = (Except.ok row, db2)) :
    row.message = input.message ∧
    (row.is_approved = false ↔
      ∃ w ∈ inappropriateWords, includes (jsToLower input.message) w = true) := by
  rcases hfind : db.invitations.find? (fun i => i.id == input.invitation_id) with
    _ | inv
  · unfold createGuestbook at h
    rw [hfind] at h
    exact absurd h (by simp)
  · by_cases hst : inv.status = InvitationStatus.published
    · have hbne : (inv.status != InvitationStatus.published) = false := by
        simp [hst]
      unfold createGuestbook at h
      rw [hfind] at h
      simp [hbne] at h
      constructor
      · rw [← h.1]
      · rw [← h.1]
        simp only []
        constructor
        · intro hfalse
          have : hasInappropriateContent input.message = true := by
            simpa using hfalse
          simpa [hasInappropriateContent, List.any_eq_true] using this
        · intro hex
          have : hasInappropriateContent input.message = true := by
            simpa [hasInappropriateContent, List.any_eq_true] using hex
          simp [this]
    · have hbne : (inv.status != InvitationStatus.published) = true := by
        simpa using hst
      unfold createGuestbook at h
      rw [hfind] at h
      simp [hbne] at h

/-- A message containing the denylist word `scam` (case-insensitively). -/
def gbSpam : CreateGuestbookInput :=
  { invitation_id := 20, guest_name := "Ivy", message := "Total SCAM event" }

/-- The row the filter rejects. -/
def rowSpam : GuestbookRow :=
  { id := 1, invitation_id := 20, guest_name := "Ivy",
    message := "Total SCAM event", is_approved := false, created_at := 10 }

/-- Concrete instantiation of `createGuestbook_filter_denylist` on `dbC8`:
the message `Total SCAM event` is stored with `is_approved = false` and the
iff holds, while the clean message `Congratulations` is approved. -/
theorem createGuestbook_filter_denylist_witness :
    createGuestbook dbC8 gbSpam 1 10 =
      (Except.ok rowSpam, (createGuestbook dbC8 gbSpam 1 10).2) ∧
    (rowSpam.message = gbSpam.message ∧
      (rowSpam.is_approved = false ↔
        ∃ w ∈ inappropriateWords, includes (jsToLower gbSpam.message) w = true)) ∧
    (createGuestbook dbC8 gbClean 2 11).1 = Except.ok
      { id := 2, invitation_id := 20, guest_name := "Hal",
        message := "Congratulations", is_approved := true, created_at := 11 } :=
  ⟨by decide,
    createGuestbook_filter_denylist dbC8 gbSpam 1 10 rowSpam
      (createGuestbook dbC8 gbSpam 1 10).2 (by decide),
    by decide⟩

theorem find?_updateWhere_of_invariant {α : Type} (p q : α → Bool) (f : α → α)
    (l : List α) (hq : ∀ x, q (if p x then f x else x) = q x) :
    (updateWhere p f l).find? q =
      (l.find? q).map fun x => if p x then f x else x :=
  find?_map_of_pred_invariant q _ l hq

/-- C9: `getInvitationBySlug` on a store whose first published row with the
slug has `view_count = n` returns that row with `view_count = n + 1`,
persists `n + 1` (looking the row up by id afterwards finds the bumped
value), and a second call returns `n + 2`; when no published invitation
carries the slug the call returns `none` and the store — every counter —
unchanged. -/
theorem getInvitationBySlug_increments_view_count (db : DB) (slug : String) :
    (db.invitations.find?
        (fun i => i.slug == slug && i.status == InvitationStatus.published) = none →
      getInvitationBySlug db slug = (none, db)) ∧
    (∀ inv, db.invitations.find?
        (fun i => i.slug == slug && i.status == InvitationStatus.published) = some inv →
      ((getInvitationBySlug db slug).1 =
        some { inv with view_count := inv.view_count + 1 }) ∧
      (db.invitations.find? (fun i => i.id == inv.id) = some inv →
        (getInvitationBySlug db slug).2.invitations.find? (fun i => i.id == inv.id) =
          some { inv with view_count := inv.view_count + 1 }) ∧
      ((getInvitationBySlug (getInvitationBySlug db slug).2 slug).1 =
        some { inv with view_count := inv.view_count + 2 })) := by
  refine ⟨?_, ?_⟩
  · intro hnone
    unfold getInvitationBySlug
    rw [hnone]
  · intro inv hfound
    have hres : (getInvitationBySlug db slug).1 =
        some { inv with view_count := inv.view_count + 1 } := by
      unfold getInvitationBySlug
      rw [hfound]
    have hdb2 : (getInvitationBySlug db slug).2.invitations =
        updateWhere (fun i => i.id == inv.id)
          (fun i => { i with view_count := inv.view_count + 1 })
          db.invitations := by
      unfold getInvitationBySlug
      rw [hfound]
    refine ⟨hres, ?_, ?_⟩
    · intro hid
      rw [hdb2, find?_updateWhere_key InvitationRow.id inv.id, hid]
      · rfl
      · intro x; rfl
    · have hfind2 : (getInvitationBySlug db slug).2.invitations.find?
          (fun i => i.slug == slug && i.status == InvitationStatus.published) =
          some { inv with view_count := inv.view_count + 1 } := by
        rw [hdb2, find?_updateWhere_of_invariant _ _ _ _
          (fun x => by by_cases hx : (x.id == inv.id) = true <;> simp [hx])]
        rw [hfound]
        simp
      generalize hgen : (getInvitationBySlug db slug).2 = dbAfter at hfind2 ⊢
      unfold getInvitationBySlug
      rw [hfind2]

/-- Published invitation with `view_count = 5`, as in the spec's example. -/
def invFive : InvitationRow :=
  { pubInv with id := 23, slug := "wedding-five", view_count := 5 }

/-- Store holding `invFive`. -/
def dbC9 : DB := { emptyDB with invitations := [invFive] }

/-- Concrete instantiation of `getInvitationBySlug_increments_view_count` on
`dbC9`: starting at `view_count = 5`, one call returns 6 and persists 6, a
second call returns 7, and an unknown slug returns `none` with the store
unchanged. -/
theorem getInvitationBySlug_increments_view_count_witness :
    ((getInvitationBySlug dbC9 "wedding-five").1 =
      some { invFive with view_count := 6 }) ∧
    ((getInvitationBySlug dbC9 "wedding-five").2.invitations.find?
        (fun i => i.id == invFive.id) = some { invFive with view_count := 6 }) ∧
    ((getInvitationBySlug (getInvitationBySlug dbC9 "wedding-five").2
        "wedding-five").1 = some { invFive with view_count := 7 }) ∧
    getInvitationBySlug dbC9 "no-such-slug" = (none, dbC9) :=
  ⟨((getInvitationBySlug_increments_view_count dbC9 "wedding-five").2 invFive
      (by decide)).1,
    ((getInvitationBySlug_increments_view_count dbC9 "wedding-five").2 invFive
      (by decide)).2.1 (by decide),
    ((getInvitationBySlug_increments_view_count dbC9 "wedding-five").2 invFive
      (by decide)).2.2,
    (getInvitationBySlug_increments_view_count dbC9 "no-such-slug").1 (by decide)⟩

/-- C10: `createUser` returns the caller's plaintext name, email and phone
together with the stored `password_hash` (the `salt:digest` credential)
verbatim, while the persisted row keeps the masked name (random IV), the
deterministically masked email and the masked phone — the phone only when
truthy, a null or empty-string phone being persisted as null; and `getUsers`
returns the stored rows — `password_hash` included — verbatim. -/
theorem createUser_getUsers_expose_credentials (db : DB) (input : CreateUserInput)
    (c : Crypto) (salt ivName ivPhone : String) (newId : Nat) (now : Time) :
    (createUser db input c salt ivName ivPhone newId now).1.name = input.name ∧
    (createUser db input c salt ivName ivPhone newId now).1.email = input.email ∧
    (createUser db input c salt ivName ivPhone newId now).1.phone = input.phone ∧
    (createUser db input c salt ivName ivPhone newId now).1.password_hash =
      hashPassword c.pbkdf2 salt input.password ∧
    (∃ stored : UserRow,
      (createUser db input c salt ivName ivPhone newId now).2.users =
        db.users ++ [stored] ∧
      stored.password_hash =
        (createUser db input c salt ivName ivPhone newId now).1.password_hash ∧
      stored.name = encrypt c ivName input.name ∧
      stored.email = encryptDet c input.email ∧
      stored.phone = (if truthy input.phone then
        input.phone.map (fun ph => encrypt c ivPhone ph) else none)) ∧
    getUsers db = db.users := by
  refine ⟨rfl, rfl, rfl, rfl, ⟨_, rfl, rfl, rfl, rfl, rfl⟩, ?_⟩
  show db.users.map _ = db.users
  exact List.map_id db.users

end WeddingApp
